import Mathlib

/-!
Verification of the UV-sphere tessellation routine
`vtkTexturedSphereSource::RequestData` and the constructor
`vtkTexturedSphereSource::vtkTexturedSphereSource` from
`Filters/Sources/vtkTexturedSphereSource.cxx`.

The per-vertex geometry (points, normals, texture coordinates) is embedded
over the real numbers, mirroring the double-precision formulas of the source;
the connectivity (triangle index triples) is embedded over the naturals.
The nested `for` loops that append one entry per `(i, j)` grid cell are
embedded as `flatMap`/`map` over `List.range`.
-/

namespace VTKTexturedSphere

/-- The configuration consumed by `RequestData`: `this->Radius`,
`this->ThetaResolution`, `this->PhiResolution`. -/
structure SphereSpec where
  radius : ℝ
  thetaResolution : ℕ
  phiResolution : ℕ

/-- The output assembled by `RequestData`: parallel sequences of points,
normals and texture coordinates, plus the triangle connectivity. -/
structure Mesh where
  points : List (ℝ × ℝ × ℝ)
  normals : List (ℝ × ℝ × ℝ)
  texcoords : List (ℝ × ℝ)
  triangles : List (ℕ × ℕ × ℕ)

/-- `deltaPhi = vtkMath::Pi() / this->PhiResolution`. -/
noncomputable def deltaPhi (spec : SphereSpec) : ℝ :=
  Real.pi / spec.phiResolution

/-- `deltaTheta = 2.0 * vtkMath::Pi() / this->ThetaResolution`. -/
noncomputable def deltaTheta (spec : SphereSpec) : ℝ :=
  2 * Real.pi / spec.thetaResolution

/-- `theta = i * deltaTheta` (outer loop variable). -/
noncomputable def thetaAt (spec : SphereSpec) (i : ℕ) : ℝ :=
  i * deltaTheta spec

/-- `phi = j * deltaPhi` (inner loop variable). -/
noncomputable def phiAt (spec : SphereSpec) (j : ℕ) : ℝ :=
  j * deltaPhi spec

/-- `vtkMath::Norm(x)` for a 3-vector: `sqrt(x*x + y*y + z*z)`. -/
noncomputable def vtkNorm (v : ℝ × ℝ × ℝ) : ℝ :=
  Real.sqrt (v.1 * v.1 + v.2.1 * v.2.1 + v.2.2 * v.2.2)

/-- The point inserted at grid cell `(i, j)`:
`radius = this->Radius * sin(phi)`; `x[0] = radius*cos(theta)`,
`x[1] = radius*sin(theta)`, `x[2] = this->Radius*cos(phi)`. -/
noncomputable def vertexPoint (spec : SphereSpec) (i j : ℕ) : ℝ × ℝ × ℝ :=
  let theta := thetaAt spec i
  let phi := phiAt spec j
  let radius := spec.radius * Real.sin phi
  (radius * Real.cos theta, radius * Real.sin theta, spec.radius * Real.cos phi)

/-- The normal inserted at grid cell `(i, j)`: the point divided
componentwise by `norm = vtkMath::Norm(x)`, with `norm` replaced by `1.0`
when it is exactly zero. -/
noncomputable def vertexNormal (spec : SphereSpec) (i j : ℕ) : ℝ × ℝ × ℝ :=
  let x := vertexPoint spec i j
  let norm := if vtkNorm x = 0 then 1 else vtkNorm x
  (x.1 / norm, x.2.1 / norm, x.2.2 / norm)

/-- The texture coordinate inserted at grid cell `(i, j)`:
`tc[0] = theta / (2.0 * vtkMath::Pi())`,
`tc[1] = 1.0 - phi / vtkMath::Pi()`. -/
noncomputable def vertexTCoord (spec : SphereSpec) (i j : ℕ) : ℝ × ℝ :=
  (thetaAt spec i / (2 * Real.pi), 1 - phiAt spec j / Real.pi)

/-- The two triangles emitted for quad cell `(i, j)` of the connectivity
loop: `pts[0] = (PhiResolution+1)*i + j`, `pts[1] = pts[0] + 1`,
`pts[2] = ((PhiResolution+1)*(i+1) + j) + 1`, then the second cell reuses
`pts[0]`, sets `pts[1] = pts[2]` and `pts[2] = pts[1] - 1`. -/
def quadTriangles (phiRes i j : ℕ) : List (ℕ × ℕ × ℕ) :=
  let pts0 := (phiRes + 1) * i + j
  let pts1 := pts0 + 1
  let pts2 := (phiRes + 1) * (i + 1) + j + 1
  [(pts0, pts1, pts2), (pts0, pts2, pts2 - 1)]

/-- A doubly nested loop, `i` over `[0, n)` outer and `j` over `[0, m)`
inner, appending `f i j` once per iteration. -/
def gridList {α : Type} (n m : ℕ) (f : ℕ → ℕ → α) : List α :=
  (List.range n).flatMap fun i => (List.range m).map (f i)

/-- `RequestData`'s mesh assembly: the point/normal/texcoord loops run `i`
over `[0, ThetaResolution]` and `j` over `[0, PhiResolution]` inclusive;
the connectivity loops run `i` over `[0, ThetaResolution)` and `j` over
`[0, PhiResolution)`, emitting two triangles per quad cell. -/
noncomputable def generate (spec : SphereSpec) : Mesh where
  points :=
    gridList (spec.thetaResolution + 1) (spec.phiResolution + 1) (vertexPoint spec)
  normals :=
    gridList (spec.thetaResolution + 1) (spec.phiResolution + 1) (vertexNormal spec)
  texcoords :=
    gridList (spec.thetaResolution + 1) (spec.phiResolution + 1) (vertexTCoord spec)
  triangles :=
    (List.range spec.thetaResolution).flatMap fun i =>
      (List.range spec.phiResolution).flatMap fun j =>
        quadTriangles spec.phiResolution i j

/-- `RequestData` assembles the mesh into the output object and then
unconditionally executes `return 1`; there is no other return statement. -/
noncomputable def requestData (spec : SphereSpec) : Mesh × ℤ :=
  (generate spec, 1)

/-- The member state set by the constructor
`vtkTexturedSphereSource::vtkTexturedSphereSource(int res)`. -/
structure SourceState where
  Radius : ℝ
  ThetaResolution : ℤ
  PhiResolution : ℤ
  Theta : ℝ
  Phi : ℝ

/-- The constructor: `res = res < 4 ? 4 : res`, then `Radius = 0.5`,
`ThetaResolution = res`, `PhiResolution = res`, `Theta = 0.0`, `Phi = 0.0`. -/
def mkTexturedSphereSource (res : ℤ) : SourceState :=
  let r := if res < 4 then 4 else res
  { Radius := 0.5, ThetaResolution := r, PhiResolution := r, Theta := 0, Phi := 0 }

section GridLemmas

variable {α : Type}

theorem length_flatMap_const (l : List α) {β : Type} (f : α → List β) (k : ℕ)
    (h : ∀ a ∈ l, (f a).length = k) : (l.flatMap f).length = l.length * k := by
  induction l with
  | nil => simp
  | cons a l ih =>
    simp only [List.flatMap_cons, List.length_append, List.length_cons]
    rw [h a (by simp), ih fun b hb => h b (by simp [hb])]
    ring

theorem gridList_length (n m : ℕ) (f : ℕ → ℕ → α) :
    (gridList n m f).length = n * m := by
  rw [gridList, length_flatMap_const _ _ m (by simp), List.length_range]

theorem gridList_getElem (n m : ℕ) (f : ℕ → ℕ → α) (i j : ℕ)
    (hi : i < n) (hj : j < m) :
    (gridList n m f)[m * i + j]? = some (f i j) := by
  induction n with
  | zero => omega
  | succ n ih =>
    rw [gridList, List.range_succ, List.flatMap_append]
    rcases Nat.lt_or_ge i n with h | h
    · rw [List.getElem?_append_left]
      · exact ih h
      · rw [show ((List.range n).flatMap fun i => (List.range m).map (f i)) =
            gridList n m f from rfl, gridList_length]
        calc m * i + j < m * i + m := by omega
          _ = m * (i + 1) := by ring
          _ ≤ n * m := by rw [Nat.mul_comm]; exact Nat.mul_le_mul_right m h
    · have hin : i = n := by omega
      subst hin
      rw [List.getElem?_append_right]
      · rw [show ((List.range i).flatMap fun k => (List.range m).map (f k)) =
            gridList i m f from rfl, gridList_length]
        have hidx : m * i + j - i * m = j := by
          rw [Nat.mul_comm]; omega
        rw [hidx]
        simp [hj]
      · rw [show ((List.range i).flatMap fun k => (List.range m).map (f k)) =
            gridList i m f from rfl, gridList_length]
        rw [Nat.mul_comm]; omega

end GridLemmas

theorem quadTriangles_length (phiRes i j : ℕ) :
    (quadTriangles phiRes i j).length = 2 := rfl

theorem triangles_length (thetaRes phiRes : ℕ) :
    ((List.range thetaRes).flatMap fun i =>
      (List.range phiRes).flatMap fun j => quadTriangles phiRes i j).length =
      2 * phiRes * thetaRes := by
  have hinner : ∀ i : ℕ,
      ((List.range phiRes).flatMap fun j => quadTriangles phiRes i j).length =
        phiRes * 2 := by
    intro i
    rw [length_flatMap_const (List.range phiRes) _ 2
      (fun j _ => quadTriangles_length phiRes i j), List.length_range]
  rw [length_flatMap_const (List.range thetaRes) _ (phiRes * 2)
    (fun i _ => hinner i), List.length_range]
  ring

/-- C1: for every SphereSpec with both resolutions at least 4, the generated
mesh has points, normals and texcoords of length
`(phiResolution+1)*(thetaResolution+1)` and `2*phiResolution*thetaResolution`
triangles. -/
theorem generate_lengths (spec : SphereSpec)
    (_hθ : 4 ≤ spec.thetaResolution) (_hφ : 4 ≤ spec.phiResolution) :
    (generate spec).points.length =
      (spec.phiResolution + 1) * (spec.thetaResolution + 1) ∧
    (generate spec).normals.length =
      (spec.phiResolution + 1) * (spec.thetaResolution + 1) ∧
    (generate spec).texcoords.length =
      (spec.phiResolution + 1) * (spec.thetaResolution + 1) ∧
    (generate spec).triangles.length =
      2 * spec.phiResolution * spec.thetaResolution := by
  refine ⟨?_, ?_, ?_, ?_⟩
  · rw [generate, gridList_length]; ring
  · rw [generate, gridList_length]; ring
  · rw [generate, gridList_length]; ring
  · rw [generate, triangles_length]

theorem generate_lengths_witness :
    4 ≤ (4 : ℕ) ∧
    ((generate ⟨1, 4, 4⟩).points.length = (4 + 1) * (4 + 1) ∧
     (generate ⟨1, 4, 4⟩).normals.length = (4 + 1) * (4 + 1) ∧
     (generate ⟨1, 4, 4⟩).texcoords.length = (4 + 1) * (4 + 1) ∧
     (generate ⟨1, 4, 4⟩).triangles.length = 2 * 4 * 4) :=
  ⟨le_refl 4, generate_lengths ⟨1, 4, 4⟩ (le_refl 4) (le_refl 4)⟩

/-- C3 counterexample: with `thetaResolution = phiResolution = 4`, the quad
cell `(0, 0)` has `base = 0`; the first emitted triangle is `(0, 1, 6)`,
whose last two indices are `1` and `6`.  The second emitted triangle is the
triangle at position 1 of the emission order; it is `(0, 6, 5)`, which does
not contain the index `1`, so it is not formed from the last two indices of
the first triangle plus `base + phiResolution + 1 = 5`. -/
theorem second_triangle_not_from_last_two :
    (generate ⟨1, 4, 4⟩).triangles[1]? = some (0, 6, 5) ∧
    ¬ ((1 : ℕ) = 0 ∨ (1 : ℕ) = 6 ∨ (1 : ℕ) = 5) := by
  constructor
  · rfl
  · decide

/-- C3 (amended): for every SphereSpec, the connectivity loop emits, for each
`i` in `[0, thetaResolution)` and `j` in `[0, phiResolution)` with
`base = (phiResolution+1)*i + j`, exactly the two triangles
`(base, base+1, base+phiResolution+2)` and
`(base, base+phiResolution+2, base+phiResolution+1)`, in this order: the
second triangle reuses the FIRST and third indices of the first triangle,
followed by `base+phiResolution+1`. -/
theorem generate_triangles_eq (spec : SphereSpec) :
    (generate spec).triangles =
      (List.range spec.thetaResolution).flatMap fun i =>
        (List.range spec.phiResolution).flatMap fun j =>
          [((spec.phiResolution + 1) * i + j,
            (spec.phiResolution + 1) * i + j + 1,
            (spec.phiResolution + 1) * i + j + spec.phiResolution + 2),
           ((spec.phiResolution + 1) * i + j,
            (spec.phiResolution + 1) * i + j + spec.phiResolution + 2,
            (spec.phiResolution + 1) * i + j + spec.phiResolution + 1)] := by
  have hq : ∀ i j : ℕ, quadTriangles spec.phiResolution i j =
      [((spec.phiResolution + 1) * i + j,
        (spec.phiResolution + 1) * i + j + 1,
        (spec.phiResolution + 1) * i + j + spec.phiResolution + 2),
       ((spec.phiResolution + 1) * i + j,
        (spec.phiResolution + 1) * i + j + spec.phiResolution + 2,
        (spec.phiResolution + 1) * i + j + spec.phiResolution + 1)] := by
    intro i j
    have h2 : (spec.phiResolution + 1) * (i + 1) + j + 1 =
        (spec.phiResolution + 1) * i + j + spec.phiResolution + 2 := by ring
    have h3 : (spec.phiResolution + 1) * i + j + spec.phiResolution + 2 - 1 =
        (spec.phiResolution + 1) * i + j + spec.phiResolution + 1 := by omega
    simp only [quadTriangles, h2, h3]
  simp only [generate, hq]

/-- C8: the constructor clamps `res` to a minimum of 4 and stores it in both
resolutions (`max res 4`), and the tessellation routine uses the stored
resolutions as-is, without re-validating: for ANY resolutions, clamped or
not, the output sizes follow the un-clamped formulas. -/
theorem constructor_clamp (res : ℤ) :
    (mkTexturedSphereSource res).ThetaResolution = max res 4 ∧
    (mkTexturedSphereSource res).PhiResolution = max res 4 ∧
    (mkTexturedSphereSource res).Radius = 0.5 ∧
    (∀ r : ℝ, ∀ θR φR : ℕ,
      (generate ⟨r, θR, φR⟩).points.length = (φR + 1) * (θR + 1) ∧
      (generate ⟨r, θR, φR⟩).triangles.length = 2 * φR * θR) := by
  refine ⟨?_, ?_, rfl, ?_⟩
  · rw [mkTexturedSphereSource]
    simp only [max_def]
    split <;> split <;> omega
  · rw [mkTexturedSphereSource]
    simp only [max_def]
    split <;> split <;> omega
  · intro r θR φR
    constructor
    · rw [generate, gridList_length]; ring
    · rw [generate, triangles_length]

/-- C9: `RequestData` has no error branch: for every spec it completes,
producing the assembled mesh, and returns the success code 1. -/
theorem requestData_total (spec : SphereSpec) :
    (requestData spec).1 = generate spec ∧ (requestData spec).2 = 1 :=
  ⟨rfl, rfl⟩

/-- C10: every index of every emitted triangle is below the point count
`(phiResolution+1)*(thetaResolution+1)`, and some emitted triangle attains
the last point index `(phiResolution+1)*(thetaResolution+1) - 1`. -/
theorem triangles_indices_in_range (spec : SphereSpec)
    (hθ : 4 ≤ spec.thetaResolution) (hφ : 4 ≤ spec.phiResolution) :
    (∀ t ∈ (generate spec).triangles,
      t.1 < (spec.phiResolution + 1) * (spec.thetaResolution + 1) ∧
      t.2.1 < (spec.phiResolution + 1) * (spec.thetaResolution + 1) ∧
      t.2.2 < (spec.phiResolution + 1) * (spec.thetaResolution + 1)) ∧
    (∃ t ∈ (generate spec).triangles,
      t.2.2 = (spec.phiResolution + 1) * (spec.thetaResolution + 1) - 1) := by
  constructor
  · intro t ht
    rw [generate] at ht
    simp only [List.mem_flatMap, List.mem_range, quadTriangles,
      List.mem_cons, List.not_mem_nil, or_false] at ht
    obtain ⟨i, hi, j, hj, hcase⟩ := ht
    have h1 : i + 1 ≤ spec.thetaResolution := hi
    have h2 : (spec.phiResolution + 1) * (i + 1) ≤
        (spec.phiResolution + 1) * spec.thetaResolution :=
      Nat.mul_le_mul_left (spec.phiResolution + 1) h1
    have h3 : (spec.phiResolution + 1) * (spec.thetaResolution + 1) =
        (spec.phiResolution + 1) * spec.thetaResolution +
          (spec.phiResolution + 1) := by ring
    have h4 : (spec.phiResolution + 1) * i ≤
        (spec.phiResolution + 1) * (i + 1) :=
      Nat.mul_le_mul_left (spec.phiResolution + 1) (by omega)
    rcases hcase with h | h <;> rw [h] <;> dsimp only <;>
      exact ⟨by omega, by omega, by omega⟩
  · refine ⟨((spec.phiResolution + 1) * (spec.thetaResolution - 1) +
        (spec.phiResolution - 1),
      (spec.phiResolution + 1) * (spec.thetaResolution - 1) +
        (spec.phiResolution - 1) + 1,
      (spec.phiResolution + 1) * ((spec.thetaResolution - 1) + 1) +
        (spec.phiResolution - 1) + 1), ?_, ?_⟩
    · rw [generate]
      simp only [List.mem_flatMap, List.mem_range]
      refine ⟨spec.thetaResolution - 1, by omega,
        spec.phiResolution - 1, by omega, ?_⟩
      rw [quadTriangles]
      simp
    · dsimp only
      have h1 : (spec.phiResolution + 1) * ((spec.thetaResolution - 1) + 1) =
          (spec.phiResolution + 1) * spec.thetaResolution := by
        congr 1; omega
      have h2 : (spec.phiResolution + 1) * (spec.thetaResolution + 1) =
          (spec.phiResolution + 1) * spec.thetaResolution +
            spec.phiResolution + 1 := by ring
      omega

section Geometry

theorem thetaAt_eq (spec : SphereSpec) (i : ℕ) :
    thetaAt spec i = i * (2 * Real.pi) / spec.thetaResolution := by
  rw [thetaAt, deltaTheta]; ring

theorem phiAt_eq (spec : SphereSpec) (j : ℕ) :
    phiAt spec j = j * Real.pi / spec.phiResolution := by
  rw [phiAt, deltaPhi]; ring

theorem vertexPoint_normSq (spec : SphereSpec) (i j : ℕ) :
    (vertexPoint spec i j).1 * (vertexPoint spec i j).1 +
      (vertexPoint spec i j).2.1 * (vertexPoint spec i j).2.1 +
      (vertexPoint spec i j).2.2 * (vertexPoint spec i j).2.2 =
      spec.radius ^ 2 := by
  simp only [vertexPoint]
  have h1 := Real.sin_sq_add_cos_sq (thetaAt spec i)
  have h2 := Real.sin_sq_add_cos_sq (phiAt spec j)
  linear_combination
    spec.radius ^ 2 * Real.sin (phiAt spec j) ^ 2 * h1 + spec.radius ^ 2 * h2

theorem vtkNorm_vertexPoint (spec : SphereSpec) (hr : 0 < spec.radius)
    (i j : ℕ) : vtkNorm (vertexPoint spec i j) = spec.radius := by
  rw [vtkNorm, vertexPoint_normSq]
  exact Real.sqrt_sq hr.le

theorem vertexNormal_eq (spec : SphereSpec) (hr : 0 < spec.radius) (i j : ℕ) :
    vertexNormal spec i j =
      ((vertexPoint spec i j).1 / spec.radius,
       (vertexPoint spec i j).2.1 / spec.radius,
       (vertexPoint spec i j).2.2 / spec.radius) := by
  simp only [vertexNormal, vtkNorm_vertexPoint spec hr i j]
  rw [if_neg (ne_of_gt hr)]

theorem vtkNorm_vertexNormal (spec : SphereSpec) (hr : 0 < spec.radius)
    (i j : ℕ) : vtkNorm (vertexNormal spec i j) = 1 := by
  rw [vertexNormal_eq spec hr i j, vtkNorm]
  have hx : (vertexPoint spec i j).1 / spec.radius *
        ((vertexPoint spec i j).1 / spec.radius) +
      (vertexPoint spec i j).2.1 / spec.radius *
        ((vertexPoint spec i j).2.1 / spec.radius) +
      (vertexPoint spec i j).2.2 / spec.radius *
        ((vertexPoint spec i j).2.2 / spec.radius) =
      ((vertexPoint spec i j).1 * (vertexPoint spec i j).1 +
        (vertexPoint spec i j).2.1 * (vertexPoint spec i j).2.1 +
        (vertexPoint spec i j).2.2 * (vertexPoint spec i j).2.2) /
        spec.radius ^ 2 := by ring
  rw [hx, vertexPoint_normSq, div_self (pow_ne_zero 2 (ne_of_gt hr)),
    Real.sqrt_one]

/-- C2: for every valid SphereSpec, the point stored at sequence position
`(phiResolution+1)*i + j` is
`(radius*sin(phi)*cos(theta), radius*sin(phi)*sin(theta), radius*cos(phi))`
with `theta = i*2*pi/thetaResolution` and `phi = j*pi/phiResolution`. -/
theorem points_formula (spec : SphereSpec)
    (_hr : 0 < spec.radius)
    (_hθ : 4 ≤ spec.thetaResolution) (_hφ : 4 ≤ spec.phiResolution)
    (i j : ℕ) (hi : i ≤ spec.thetaResolution) (hj : j ≤ spec.phiResolution) :
    (generate spec).points[(spec.phiResolution + 1) * i + j]? =
      some (spec.radius * Real.sin (j * Real.pi / spec.phiResolution) *
              Real.cos (i * (2 * Real.pi) / spec.thetaResolution),
            spec.radius * Real.sin (j * Real.pi / spec.phiResolution) *
              Real.sin (i * (2 * Real.pi) / spec.thetaResolution),
            spec.radius * Real.cos (j * Real.pi / spec.phiResolution)) := by
  rw [generate]
  rw [gridList_getElem _ _ _ i j (by omega) (by omega)]
  simp only [vertexPoint, thetaAt_eq, phiAt_eq]

theorem points_formula_witness :
    (0 : ℝ) < 1 ∧
    (generate ⟨1, 4, 4⟩).points[(4 + 1) * 1 + 1]? =
      some ((1 : ℝ) * Real.sin ((1 : ℕ) * Real.pi / (4 : ℕ)) *
              Real.cos ((1 : ℕ) * (2 * Real.pi) / (4 : ℕ)),
            (1 : ℝ) * Real.sin ((1 : ℕ) * Real.pi / (4 : ℕ)) *
              Real.sin ((1 : ℕ) * (2 * Real.pi) / (4 : ℕ)),
            (1 : ℝ) * Real.cos ((1 : ℕ) * Real.pi / (4 : ℕ))) :=
  ⟨by norm_num,
   points_formula ⟨1, 4, 4⟩ (by norm_num) (by norm_num) (by norm_num) 1 1
     (by norm_num) (by norm_num)⟩

/-- C4 counterexample: for the valid spec `{radius 1, 4, 4}`, the normal
stored for the north-pole vertex `(i, j) = (0, 0)` (where `phi = 0`) is
`(0, 0, 1)`, not the zero vector: the zero-norm substitution does not fire
there because the point `(0, 0, 1)` has norm `1 ≠ 0`. -/
theorem north_pole_normal_not_zero :
    (generate ⟨1, 4, 4⟩).normals[0]? = some (0, 0, 1) ∧
    ((0 : ℝ), (0 : ℝ), (1 : ℝ)) ≠ ((0 : ℝ), (0 : ℝ), (0 : ℝ)) := by
  constructor
  · rw [generate]
    have h := gridList_getElem (4 + 1) (4 + 1) (vertexNormal ⟨1, 4, 4⟩) 0 0
      (by omega) (by omega)
    simp only [Nat.mul_zero, Nat.add_zero] at h
    rw [h]
    congr 1
    simp [vertexNormal, vertexPoint, vtkNorm, thetaAt, phiAt, deltaTheta,
      deltaPhi, Real.sqrt_one]
  · simp

/-- C4 (amended): for every valid SphereSpec (radius > 0), every stored
normal is the corresponding point divided by its norm, and every stored
normal — including the rows at `phi = 0` and `phi = pi` — has unit length:
the point norm always equals `radius > 0`, so the zero-norm substitution
(divisor replaced by 1.0) never triggers. -/
theorem normals_unit (spec : SphereSpec) (hr : 0 < spec.radius)
    (_hθ : 4 ≤ spec.thetaResolution) (_hφ : 4 ≤ spec.phiResolution)
    (i j : ℕ) (hi : i ≤ spec.thetaResolution) (hj : j ≤ spec.phiResolution) :
    vtkNorm (vertexPoint spec i j) = spec.radius ∧
    (generate spec).normals[(spec.phiResolution + 1) * i + j]? =
      some ((vertexPoint spec i j).1 / spec.radius,
            (vertexPoint spec i j).2.1 / spec.radius,
            (vertexPoint spec i j).2.2 / spec.radius) ∧
    vtkNorm (vertexNormal spec i j) = 1 := by
  refine ⟨vtkNorm_vertexPoint spec hr i j, ?_, vtkNorm_vertexNormal spec hr i j⟩
  rw [generate]
  rw [gridList_getElem _ _ _ i j (by omega) (by omega),
    vertexNormal_eq spec hr i j]

theorem normals_unit_witness :
    (0 : ℝ) < 1 ∧
    (vtkNorm (vertexPoint ⟨1, 4, 4⟩ 2 3) = 1 ∧
     (generate ⟨1, 4, 4⟩).normals[(4 + 1) * 2 + 3]? =
       some ((vertexPoint ⟨1, 4, 4⟩ 2 3).1 / 1,
             (vertexPoint ⟨1, 4, 4⟩ 2 3).2.1 / 1,
             (vertexPoint ⟨1, 4, 4⟩ 2 3).2.2 / 1) ∧
     vtkNorm (vertexNormal ⟨1, 4, 4⟩ 2 3) = 1) :=
  ⟨by norm_num,
   normals_unit ⟨1, 4, 4⟩ (by norm_num) (by norm_num) (by norm_num) 2 3
     (by norm_num) (by norm_num)⟩

/-- C5: for every valid SphereSpec, the texture coordinate stored at
position `(phiResolution+1)*i + j` is `(theta/(2*pi), 1 - phi/pi)` with
`theta = i*2*pi/thetaResolution` and `phi = j*pi/phiResolution`;
consequently `v = 1` at `phi = 0` (`j = 0`) and `v = 0` at `phi = pi`
(`j = phiResolution`). -/
theorem texcoords_formula (spec : SphereSpec)
    (_hθ : 4 ≤ spec.thetaResolution) (hφ : 4 ≤ spec.phiResolution)
    (i j : ℕ) (hi : i ≤ spec.thetaResolution) (hj : j ≤ spec.phiResolution) :
    (generate spec).texcoords[(spec.phiResolution + 1) * i + j]? =
      some ((i * (2 * Real.pi) / spec.thetaResolution) / (2 * Real.pi),
            1 - (j * Real.pi / spec.phiResolution) / Real.pi) ∧
    (j = 0 →
      1 - ((j : ℝ) * Real.pi / spec.phiResolution) / Real.pi = 1) ∧
    (j = spec.phiResolution →
      1 - ((j : ℝ) * Real.pi / spec.phiResolution) / Real.pi = 0) := by
  refine ⟨?_, ?_, ?_⟩
  · rw [generate]
    rw [gridList_getElem _ _ _ i j (by omega) (by omega)]
    simp only [vertexTCoord, thetaAt_eq, phiAt_eq]
  · intro h
    subst h
    simp
  · intro h
    subst h
    have h0 : (spec.phiResolution : ℝ) ≠ 0 :=
      Nat.cast_ne_zero.mpr (by omega)
    field_simp

theorem texcoords_formula_witness :
    (4 : ℕ) ≤ 4 ∧
    ((generate ⟨1, 4, 4⟩).texcoords[(4 + 1) * 1 + 4]? =
      some (((1 : ℕ) * (2 * Real.pi) / (4 : ℕ)) / (2 * Real.pi),
            1 - ((4 : ℕ) * Real.pi / (4 : ℕ)) / Real.pi) ∧
     ((4 : ℕ) = 0 →
       1 - ((4 : ℕ) : ℝ) * Real.pi / ((4 : ℕ) : ℝ) / Real.pi = 1) ∧
     ((4 : ℕ) = 4 →
       1 - ((4 : ℕ) : ℝ) * Real.pi / ((4 : ℕ) : ℝ) / Real.pi = 0)) :=
  ⟨le_refl 4,
   texcoords_formula ⟨1, 4, 4⟩ (by norm_num) (by norm_num) 1 4
     (by norm_num) (by norm_num)⟩

theorem vertexTCoord_fst (spec : SphereSpec) (hθ : 4 ≤ spec.thetaResolution)
    (i j : ℕ) : (vertexTCoord spec i j).1 = i / spec.thetaResolution := by
  have h0 : (spec.thetaResolution : ℝ) ≠ 0 := Nat.cast_ne_zero.mpr (by omega)
  rw [vertexTCoord, thetaAt, deltaTheta]
  field_simp
  ring

/-- C6 counterexample: for the valid spec `{radius 1, 4, 4}`, the texture
coordinate stored at position `(4+1)*4 + 0 = 20` — the seam-duplicate
column `i = thetaResolution = 4`, `j = 0` — has `u = 1`, and `1 < 1` is
false, so not every stored `u` lies in the half-open interval `[0, 1)`. -/
theorem seam_u_equals_one :
    (generate ⟨1, 4, 4⟩).texcoords[(4 + 1) * 4]? = some (1, 1) ∧
    ¬ ((1 : ℝ) < 1) := by
  constructor
  · rw [generate]
    have h := gridList_getElem (4 + 1) (4 + 1) (vertexTCoord ⟨1, 4, 4⟩) 4 0
      (by omega) (by omega)
    simp only [Nat.add_zero] at h
    rw [h]
    congr 1
    rw [vertexTCoord, thetaAt, phiAt, deltaTheta, deltaPhi]
    have hpi := Real.pi_ne_zero
    norm_num
    field_simp
  · simp

/-- C6 (amended): for every valid SphereSpec, the stored texture coordinate
`u` equals `i / thetaResolution`; it is strictly increasing in the
longitude index `i`, and lies in the CLOSED interval `[0, 1]`, reaching
`u = 1` exactly at the seam-duplicate column `i = thetaResolution`; for all
`i < thetaResolution` it lies in `[0, 1)`. -/
theorem texcoords_u_monotone (spec : SphereSpec)
    (hθ : 4 ≤ spec.thetaResolution) (_hφ : 4 ≤ spec.phiResolution)
    (i i' j j' : ℕ) (hi : i ≤ spec.thetaResolution)
    (_hi' : i' ≤ spec.thetaResolution)
    (hj : j ≤ spec.phiResolution) (_hj' : j' ≤ spec.phiResolution) :
    (generate spec).texcoords[(spec.phiResolution + 1) * i + j]? =
      some (vertexTCoord spec i j) ∧
    (i < i' → (vertexTCoord spec i j).1 < (vertexTCoord spec i' j').1) ∧
    0 ≤ (vertexTCoord spec i j).1 ∧
    (vertexTCoord spec i j).1 ≤ 1 ∧
    ((vertexTCoord spec i j).1 = 1 ↔ i = spec.thetaResolution) := by
  have hc : (0 : ℝ) < spec.thetaResolution := Nat.cast_pos.mpr (by omega)
  refine ⟨?_, ?_, ?_, ?_, ?_⟩
  · rw [generate]
    exact gridList_getElem _ _ _ i j (by omega) (by omega)
  · intro hlt
    rw [vertexTCoord_fst spec hθ, vertexTCoord_fst spec hθ]
    rw [div_lt_div_iff₀ hc hc]
    exact mul_lt_mul_of_pos_right (Nat.cast_lt.mpr hlt) hc
  · rw [vertexTCoord_fst spec hθ]
    positivity
  · rw [vertexTCoord_fst spec hθ]
    rw [div_le_one hc]
    exact_mod_cast hi
  · rw [vertexTCoord_fst spec hθ]
    rw [div_eq_one_iff_eq (ne_of_gt hc)]
    exact Nat.cast_inj

theorem texcoords_u_monotone_witness :
    (4 : ℕ) ≤ 4 ∧
    ((generate ⟨1, 4, 4⟩).texcoords[(4 + 1) * 1 + 0]? =
      some (vertexTCoord ⟨1, 4, 4⟩ 1 0) ∧
     (1 < 3 → (vertexTCoord ⟨1, 4, 4⟩ 1 0).1 <
       (vertexTCoord ⟨1, 4, 4⟩ 3 0).1) ∧
     0 ≤ (vertexTCoord ⟨1, 4, 4⟩ 1 0).1 ∧
     (vertexTCoord ⟨1, 4, 4⟩ 1 0).1 ≤ 1 ∧
     ((vertexTCoord ⟨1, 4, 4⟩ 1 0).1 = 1 ↔ 1 = 4)) :=
  ⟨le_refl 4,
   texcoords_u_monotone ⟨1, 4, 4⟩ (by norm_num) (by norm_num) 1 3 0 0
     (by norm_num) (by norm_num) (by norm_num) (by norm_num)⟩

theorem vertexPoint_1_4_4_pole : vertexPoint ⟨1, 4, 4⟩ 0 0 = (0, 0, 1) := by
  simp [vertexPoint, thetaAt, phiAt, deltaTheta, deltaPhi]

/-- C7: `generate {radius 1, thetaResolution 4, phiResolution 4}` yields
exactly 25 points and 32 triangles; the vertex at `i = 0, j = 0` is the
point `(0, 0, 1)` with normal `(0, 0, 1)`: the zero-norm substitution does
not trigger there since the point norm is `1 ≠ 0`. -/
theorem concrete_4x4 :
    (generate ⟨1, 4, 4⟩).points.length = 25 ∧
    (generate ⟨1, 4, 4⟩).triangles.length = 32 ∧
    (generate ⟨1, 4, 4⟩).points[0]? = some (0, 0, 1) ∧
    vtkNorm ((0 : ℝ), (0 : ℝ), (1 : ℝ)) = 1 ∧
    (generate ⟨1, 4, 4⟩).normals[0]? = some (0, 0, 1) := by
  refine ⟨?_, ?_, ?_, ?_, ?_⟩
  · rw [generate]
    rw [gridList_length]
    norm_num
  · rw [generate, triangles_length]
    norm_num
  · rw [generate]
    have h := gridList_getElem (4 + 1) (4 + 1) (vertexPoint ⟨1, 4, 4⟩) 0 0
      (by omega) (by omega)
    simp only [Nat.mul_zero, Nat.add_zero] at h
    rw [h, vertexPoint_1_4_4_pole]
  · rw [vtkNorm]
    norm_num
  · rw [generate]
    have h := gridList_getElem (4 + 1) (4 + 1) (vertexNormal ⟨1, 4, 4⟩) 0 0
      (by omega) (by omega)
    simp only [Nat.mul_zero, Nat.add_zero] at h
    rw [h, vertexNormal_eq ⟨1, 4, 4⟩ (by norm_num) 0 0, vertexPoint_1_4_4_pole]
    norm_num

end Geometry

theorem triangles_indices_in_range_witness :
    4 ≤ (4 : ℕ) ∧
    ((∀ t ∈ (generate ⟨1, 4, 4⟩).triangles,
      t.1 < (4 + 1) * (4 + 1) ∧ t.2.1 < (4 + 1) * (4 + 1) ∧
      t.2.2 < (4 + 1) * (4 + 1)) ∧
     (∃ t ∈ (generate ⟨1, 4, 4⟩).triangles, t.2.2 = (4 + 1) * (4 + 1) - 1)) :=
  ⟨le_refl 4, triangles_indices_in_range ⟨1, 4, 4⟩ (le_refl 4) (le_refl 4)⟩

end VTKTexturedSphere
